import Mathlib

/-!
The graphics-resource wrappers of `Engine/src/renderer.h`: a shallow embedding of `engine::renderer` and its nested types.

* `uint32_t` / `GLuint` / `GLenum` values are natural numbers; every place where the
  source does 32-bit arithmetic or narrows a wider value carries an explicit `% 2 ^ 32`.
* A driver call is recorded as one `GlCall`, arguments as they arrive in the driver
  (after the implicit C++ conversions to the parameter types of the OpenGL entry point).
* `assert` is taken with assertions enabled: a failing `assert` ends the run with
  `Fault.assertion msg`.
* `size_t` is 64 bits wide; `sizeof(float)` and `sizeof(uint32_t)` are 4.
* `float` payloads (vertex data, colour channels) are only copied by the wrappers and
  are carried as their IEEE-754 bit patterns.
-/

namespace engine

/-! ## Constants of `glad/glad.h` -/

/-- Modelled from the spec: the constant `GL_FALSE` of `glad/glad.h`, the boolean false; the header is
not among the sources, the value is the one the OpenGL registry fixes. -/
def GL_FALSE : Nat := 0

/-- Modelled from the spec: the constant `GL_INT` of `glad/glad.h`, the 32-bit signed integer datatype; the header is
not among the sources, the value is the one the OpenGL registry fixes. -/
def GL_INT : Nat := 0x1404

/-- Modelled from the spec: the constant `GL_UNSIGNED_INT` of `glad/glad.h`, the 32-bit unsigned integer datatype; the header is
not among the sources, the value is the one the OpenGL registry fixes. -/
def GL_UNSIGNED_INT : Nat := 0x1405

/-- Modelled from the spec: the constant `GL_FLOAT` of `glad/glad.h`, the 32-bit float datatype; the header is
not among the sources, the value is the one the OpenGL registry fixes. -/
def GL_FLOAT : Nat := 0x1406

/-- Modelled from the spec: the constant `GL_DOUBLE` of `glad/glad.h`, the 64-bit float datatype; the header is
not among the sources, the value is the one the OpenGL registry fixes. -/
def GL_DOUBLE : Nat := 0x140A

/-- Modelled from the spec: the constant `GL_DEPTH_BUFFER_BIT` of `glad/glad.h`, the depth buffer bit of a clear mask; the header is
not among the sources, the value is the one the OpenGL registry fixes. -/
def GL_DEPTH_BUFFER_BIT : Nat := 0x00000100

/-- Modelled from the spec: the constant `GL_COLOR_BUFFER_BIT` of `glad/glad.h`, the colour buffer bit of a clear mask; the header is
not among the sources, the value is the one the OpenGL registry fixes. -/
def GL_COLOR_BUFFER_BIT : Nat := 0x00004000

/-- Modelled from the spec: the constant `GL_ARRAY_BUFFER` of `glad/glad.h`, the vertex-data buffer target; the header is
not among the sources, the value is the one the OpenGL registry fixes. -/
def GL_ARRAY_BUFFER : Nat := 0x8892

/-- Modelled from the spec: the constant `GL_ELEMENT_ARRAY_BUFFER` of `glad/glad.h`, the index buffer target; the header is
not among the sources, the value is the one the OpenGL registry fixes. -/
def GL_ELEMENT_ARRAY_BUFFER : Nat := 0x8893

/-- Modelled from the spec: the constant `GL_STATIC_DRAW` of `glad/glad.h`, the static-usage hint; the header is
not among the sources, the value is the one the OpenGL registry fixes. -/
def GL_STATIC_DRAW : Nat := 0x88E4

/-- Modelled from the spec: the constant `GL_FRAGMENT_SHADER` of `glad/glad.h`, the fragment stage; the header is
not among the sources, the value is the one the OpenGL registry fixes. -/
def GL_FRAGMENT_SHADER : Nat := 0x8B30

/-- Modelled from the spec: the constant `GL_VERTEX_SHADER` of `glad/glad.h`, the vertex stage; the header is
not among the sources, the value is the one the OpenGL registry fixes. -/
def GL_VERTEX_SHADER : Nat := 0x8B31

/-- Modelled from the spec: the constant `GL_COMPILE_STATUS` of `glad/glad.h`, the compile status query; the header is
not among the sources, the value is the one the OpenGL registry fixes. -/
def GL_COMPILE_STATUS : Nat := 0x8B81

/-- Modelled from the spec: the constant `GL_LINK_STATUS` of `glad/glad.h`, the link status query; the header is
not among the sources, the value is the one the OpenGL registry fixes. -/
def GL_LINK_STATUS : Nat := 0x8B82

/-- A `float`, carried as its 32-bit pattern: the wrappers never compute with one. -/
abbrev float := Nat

/-- Bit pattern of `1.0f`. -/
def float_one : float := 0x3F800000

/-- Conversion of a `uint32_t` to the signed 32-bit `GLint` / `GLsizei`. -/
def toGLint (x : Nat) : Int :=
  if x % 2 ^ 32 < 2 ^ 31 then ((x % 2 ^ 32 : Nat) : Int)
  else ((x % 2 ^ 32 : Nat) : Int) - 2 ^ 32

/-- Conversion of a `size_t` loop index to `GLuint`. -/
def toGLuint (x : Nat) : Nat := x % 2 ^ 32

/-- The way a run of wrapper code ends early. -/
inductive Fault where
  /-- A failed `assert(cond, msg)`. -/
  | assertion (msg : String)
  /-- An `operator[]` read past the end of a `std::vector`. -/
  | outOfRange
  deriving DecidableEq, Repr

/-- One call into the driver, with the arguments the driver receives. -/
inductive GlCall where
  | glEnableVertexAttribArray (index : Nat)
  | glVertexAttribPointer (index : Nat) (size : Int) (type : Nat) (normalized : Nat)
      (stride : Int) (pointer : Nat)
  | glGenVertexArrays (n : Nat)
  | glGenBuffers (n : Nat)
  | glBindVertexArray (array : Nat)
  | glBindBuffer (target : Nat) (buffer : Nat)
  | glBufferData (target : Nat) (size : Nat) (data : Option (List Nat)) (usage : Nat)
  | glCreateShader (type : Nat)
  | glShaderSource (shader : Nat) (count : Nat) (source : Option String)
  | glCompileShader (shader : Nat)
  | glGetShaderiv (shader : Nat) (pname : Nat)
  | glGetShaderInfoLog (shader : Nat) (maxLength : Nat)
  | glCreateProgram
  | glAttachShader (program : Nat) (shader : Nat)
  | glLinkProgram (program : Nat)
  | glGetProgramiv (program : Nat) (pname : Nat)
  | glGetProgramInfoLog (program : Nat) (maxLength : Nat)
  | glDeleteShader (shader : Nat)
  | glUseProgram (program : Nat)
  | glClear (mask : Nat)
  | glClearColor (red green blue alpha : float)
  deriving DecidableEq, Repr

deriving instance DecidableEq for Except

/-- What a run of wrapper code did: the driver calls it issued, in order, the text it
wrote to `std::cout`, and the fault that ended it (`none`: it returned). -/
structure Run where
  calls : List GlCall := []
  out : List String := []
  fault : Option Fault := none
  deriving DecidableEq, Repr

namespace renderer

/-- The function `renderer::glDatatypeSize`: size in bytes of an OpenGL datatype; the `default:` label
is `assert(false, "Datatype not implemented.")`. -/
def glDatatypeSize (type : Nat) : Except Fault Nat :=
  if type = GL_FLOAT then .ok 4
  else if type = GL_INT then .ok 4
  else if type = GL_DOUBLE then .ok 8
  else if type = GL_UNSIGNED_INT then .ok 4
  else .error (.assertion "Datatype not implemented.")

/-- The loop of `vertexLayout<S>::bind` and of `vertexLayoutDynamic::bind` (the two bodies
are the same text): `k` iterations are left, `i` is the loop index, `offset` the running
`uint32_t` offset, `calls` the driver calls issued so far. -/
def bindLoop (Amount DataType : List Nat) (Stride : Nat) :
    Nat → Nat → Nat → List GlCall → Run
  | 0, _, _, calls => { calls := calls }
  | k + 1, i, offset, calls =>
    let calls1 := calls ++ [GlCall.glEnableVertexAttribArray (toGLuint i)]
    match Amount[i]?, DataType[i]? with
    | some amount, some dataType =>
      let calls2 := calls1 ++ [GlCall.glVertexAttribPointer (toGLuint i) (toGLint amount)
        dataType GL_FALSE (toGLint Stride) offset]
      match glDatatypeSize dataType with
      | .error f => { calls := calls2, fault := some f }
      | .ok size =>
        bindLoop Amount DataType Stride k (i + 1)
          ((offset + (size * amount) % 2 ^ 32) % 2 ^ 32) calls2
    | _, _ => { calls := calls1, fault := some Fault.outOfRange }

/-- The call `std::vector<uint32_t>::resize(size)`: keeps the first `size` elements and fills up
with value-initialised (zero) elements. -/
def resize (v : List Nat) (size : Nat) : List Nat :=
  v.take size ++ List.replicate (size - v.length) 0

/-- The struct `renderer::vertexLayoutDynamic`; the defaults are the member initialisers
`Amount = { 0 }`, `DataType = { 0 }`, `Stride = 0`. -/
structure vertexLayoutDynamic where
  Amount : List Nat := [0]
  DataType : List Nat := [0]
  Stride : Nat := 0
  deriving DecidableEq, Repr

/-- The method `vertexLayoutDynamic::setSize`: both vectors are resized. -/
def vertexLayoutDynamic.setSize (self : vertexLayoutDynamic) (size : Nat) :
    vertexLayoutDynamic :=
  { self with Amount := resize self.Amount size, DataType := resize self.DataType size }

/-- The constructor `vertexLayoutDynamic(uint32_t initialSize = 0)`: the member
initialisers, then `setSize(initialSize)`. -/
def vertexLayoutDynamic.new (initialSize : Nat) : vertexLayoutDynamic :=
  ({} : vertexLayoutDynamic).setSize initialSize

/-- The method `vertexLayoutDynamic::bind`: the loop runs while `i < Amount.size()`. -/
def vertexLayoutDynamic.bind (self : vertexLayoutDynamic) : Run :=
  bindLoop self.Amount self.DataType self.Stride self.Amount.length 0 0 []

/-- The struct `renderer::vertexLayout<S>`: both members are `std::array<uint32_t, S>`. -/
structure vertexLayout (S : Nat) where
  Amount : List Nat
  DataType : List Nat
  Stride : Nat := 0
  Amount_size : Amount.length = S
  DataType_size : DataType.length = S

/-- The method `vertexLayout<S>::bind`: the loop runs while `i < S`. -/
def vertexLayout.bind {S : Nat} (self : vertexLayout S) : Run :=
  bindLoop self.Amount self.DataType self.Stride S 0 0 []


/-! ### shader -/

/-- What the driver answers during one `compileShader`: the names it hands out, the
statuses it writes through `glGetShaderiv` / `glGetProgramiv`, and the text it writes
into `infoLog`. -/
structure CompileReplies where
  vertexShader : Nat
  vertexStatus : Int
  vertexLog : String
  fragmentShader : Nat
  fragmentStatus : Int
  fragmentLog : String
  shaderProgram : Nat
  linkStatus : Int
  programLog : String
  deriving DecidableEq, Repr

/-- The class `renderer::shader`. -/
structure shader where
  _id : Nat
  deriving DecidableEq, Repr

/-- The method `shader::compileShader`. -/
def shader.compileShader (self : shader) (vertexSrc fragmentSrc : Option String)
    (d : CompileReplies) : shader × Run :=
  -- vertex stage
  let vertexShader := d.vertexShader
  let calls := [GlCall.glCreateShader GL_VERTEX_SHADER,
    GlCall.glShaderSource vertexShader 1 vertexSrc,
    GlCall.glCompileShader vertexShader,
    GlCall.glGetShaderiv vertexShader GL_COMPILE_STATUS]
  let out : List String := []
  let success := d.vertexStatus
  let calls := if success = 0 then calls ++ [GlCall.glGetShaderInfoLog vertexShader 512]
    else calls
  let out := if success = 0 then
      out ++ ["ERROR::SHADER::VERTEX::COMPILATION_FAILED\n", d.vertexLog, "\n"]
    else out
  -- fragment stage
  let fragmentShader := d.fragmentShader
  let calls := calls ++ [GlCall.glCreateShader GL_FRAGMENT_SHADER,
    GlCall.glShaderSource fragmentShader 1 fragmentSrc,
    GlCall.glCompileShader fragmentShader,
    GlCall.glGetShaderiv fragmentShader GL_COMPILE_STATUS]
  let success := d.fragmentStatus
  let calls := if success = 0 then calls ++ [GlCall.glGetShaderInfoLog fragmentShader 512]
    else calls
  let out := if success = 0 then
      out ++ ["ERROR::SHADER::FRAGMENT::COMPILATION_FAILED\n", d.fragmentLog, "\n"]
    else out
  -- program
  let shaderProgram := d.shaderProgram
  let calls := calls ++ [GlCall.glCreateProgram,
    GlCall.glAttachShader shaderProgram vertexShader,
    GlCall.glAttachShader shaderProgram fragmentShader,
    GlCall.glLinkProgram shaderProgram,
    GlCall.glGetProgramiv shaderProgram GL_LINK_STATUS]
  let success := d.linkStatus
  let calls := if success = 0 then calls ++ [GlCall.glGetProgramInfoLog shaderProgram 512]
    else calls
  let out := if success = 0 then
      out ++ ["ERROR::PROGRAM::LINKING_FAILED\n", d.programLog, "\n"]
    else out
  let self := { self with _id := shaderProgram }
  let calls := calls ++ [GlCall.glDeleteShader vertexShader,
    GlCall.glDeleteShader fragmentShader]
  (self, { calls := calls, out := out })

/-- The constructor `shader(const char* vertexSrc = nullptr, const char* fragmentSrc =
nullptr)`; a null pointer is `none`. -/
def shader.new (vertexSrc fragmentSrc : Option String) (d : CompileReplies) : shader × Run :=
  let self : shader := { _id := 0 }
  if ¬ (vertexSrc = none ∧ fragmentSrc = none) then
    self.compileShader vertexSrc fragmentSrc d
  else
    (self, {})

/-- The method `shader::bind`. -/
def shader.bind (self : shader) : Run :=
  if ¬ ¬ (self._id = 0) then { fault := some (Fault.assertion "Shader is not compiled.") }
  else { calls := [GlCall.glUseProgram self._id] }

/-- The method `shader::unbind`. -/
def shader.unbind (_self : shader) : Run :=
  { calls := [GlCall.glUseProgram 0] }

/-! ### vertexBuffer -/

/-- The class `renderer::vertexBuffer`. -/
structure vertexBuffer where
  _vboId : Nat
  _vaoId : Nat
  _vertexAmount : Nat
  deriving DecidableEq, Repr

/-- The method `vertexBuffer::bind`. -/
def vertexBuffer.bind (self : vertexBuffer) : Run :=
  { calls := [GlCall.glBindVertexArray self._vaoId] }

/-- The method `vertexBuffer::setVertexData`; `vertices` is the memory the pointer
points to (`none`: a null pointer), `elements` a `uint32_t`. -/
def vertexBuffer.setVertexData (self : vertexBuffer) (vertices : Option (List float))
    (elements : Nat) : vertexBuffer × Run :=
  let calls := [GlCall.glBindBuffer GL_ARRAY_BUFFER self._vboId] ++ self.bind.calls
  let calls := calls ++
    [GlCall.glBufferData GL_ARRAY_BUFFER (elements * 4 % 2 ^ 64) vertices GL_STATIC_DRAW]
  ({ self with _vertexAmount := elements }, { calls := calls })

/-- The method `vertexBuffer::getVertexAmount`. -/
def vertexBuffer.getVertexAmount (self : vertexBuffer) : Nat :=
  self._vertexAmount

/-- The constructor `vertexBuffer(const std::vector<float>& vertices)`; `vao` and `vbo`
are the names the driver writes for `glGenVertexArrays` and `glGenBuffers`. The
expression `&vertices[0]` reads element 0, and `vertices.size()` is narrowed to the
`uint32_t` parameter of `setVertexData`. -/
def vertexBuffer.ofVector (vertices : List float) (vao vbo : Nat) : vertexBuffer × Run :=
  let self : vertexBuffer := { _vboId := 0, _vaoId := 0, _vertexAmount := 0 }
  let self := { self with _vaoId := vao }
  let self := { self with _vboId := vbo }
  let calls := [GlCall.glGenVertexArrays 1, GlCall.glGenBuffers 1]
  if ¬ vertices.isEmpty then
    match vertices[0]? with
    | none => (self, { calls := calls, fault := some Fault.outOfRange })
    | some _ =>
      let r := self.setVertexData (some vertices) (vertices.length % 2 ^ 32)
      (r.1, { r.2 with calls := calls ++ r.2.calls })
  else
    (self, { calls := calls })

/-- The constructor `vertexBuffer(const float* vertices, uint32_t elements)`. -/
def vertexBuffer.ofPointer (vertices : Option (List float)) (elements : Nat) (vao vbo : Nat) :
    vertexBuffer × Run :=
  let self : vertexBuffer := { _vboId := 0, _vaoId := 0, _vertexAmount := 0 }
  let self := { self with _vaoId := vao }
  let self := { self with _vboId := vbo }
  let calls := [GlCall.glGenVertexArrays 1, GlCall.glGenBuffers 1]
  if vertices.isSome then
    let r := self.setVertexData vertices elements
    (r.1, { r.2 with calls := calls ++ r.2.calls })
  else
    (self, { calls := calls })

/-! ### elementBuffer -/

/-- The class `renderer::elementBuffer`. -/
structure elementBuffer where
  _id : Nat
  _elementAmount : Nat
  deriving DecidableEq, Repr

/-- The method `elementBuffer::bind`. -/
def elementBuffer.bind (self : elementBuffer) : Run :=
  { calls := [GlCall.glBindBuffer GL_ELEMENT_ARRAY_BUFFER self._id] }

/-- The method `elementBuffer::setElementData`. -/
def elementBuffer.setElementData (self : elementBuffer) (indices : Option (List Nat))
    (elements : Nat) : elementBuffer × Run :=
  let calls := self.bind.calls ++
    [GlCall.glBufferData GL_ELEMENT_ARRAY_BUFFER (elements * 4 % 2 ^ 64) indices GL_STATIC_DRAW]
  ({ self with _elementAmount := elements }, { calls := calls })

/-- The method `elementBuffer::getElementAmount`. -/
def elementBuffer.getElementAmount (self : elementBuffer) : Nat :=
  self._elementAmount

/-- The constructor `elementBuffer(const uint32_t* indices, uint32_t elements)`. -/
def elementBuffer.ofPointer (indices : Option (List Nat)) (elements : Nat) (id : Nat) :
    elementBuffer × Run :=
  let self : elementBuffer := { _id := 0, _elementAmount := 0 }
  let self := { self with _id := id }
  let calls := [GlCall.glGenBuffers 1]
  if indices.isSome then
    let r := self.setElementData indices elements
    (r.1, { r.2 with calls := calls ++ r.2.calls })
  else
    (self, { calls := calls })

/-- The constructor `elementBuffer(const std::vector<uint32_t>& indices)`; `id` is the
name the driver writes for `glGenBuffers`. -/
def elementBuffer.ofVector (indices : List Nat) (id : Nat) : elementBuffer × Run :=
  let self : elementBuffer := { _id := 0, _elementAmount := 0 }
  let self := { self with _id := id }
  let calls := [GlCall.glGenBuffers 1]
  if ¬ indices.isEmpty then
    match indices[0]? with
    | none => (self, { calls := calls, fault := some Fault.outOfRange })
    | some _ =>
      let r := self.setElementData (some indices) (indices.length % 2 ^ 32)
      (r.1, { r.2 with calls := calls ++ r.2.calls })
  else
    (self, { calls := calls })

end renderer

/-! ### renderer -/

/-- The type `glm::vec4`, read through its colour accessors. -/
structure vec4 where
  r : float
  g : float
  b : float
  a : float
  deriving DecidableEq, Repr

/-- The struct `rendererSettings`, with its member initialisers. -/
structure rendererSettings where
  IsVsync : Bool := false
  ClearColor : vec4 := ⟨0, 0, 0, float_one⟩
  deriving DecidableEq, Repr

/-- The class `window`: it holds the `GLFWwindow*`. -/
structure window where
  _window : Nat
  deriving DecidableEq, Repr

/-- The data members of the class `renderer`. -/
structure renderer where
  _window : window
  _renderSettings : rendererSettings
  deriving DecidableEq, Repr

/-- The constructor `renderer(const window&, const rendererSettings&)`. -/
def renderer.new (w : window) (settings : rendererSettings) : renderer :=
  { _window := w, _renderSettings := settings }

/-- The method `renderer::clear`. -/
def renderer.clear (self : renderer) : Run :=
  { calls := [GlCall.glClear (GL_COLOR_BUFFER_BIT ||| GL_DEPTH_BUFFER_BIT),
      GlCall.glClearColor self._renderSettings.ClearColor.r self._renderSettings.ClearColor.g
        self._renderSettings.ClearColor.b self._renderSettings.ClearColor.a] }

/-! ### The driver's clear state

The driver is outside the repository. What follows is the part of the OpenGL state
machine that `glClear` and `glClearColor` act on: `glClearColor` stores the clear colour,
`glClear` clears the selected buffers with the colour stored at that moment, and a fresh
context holds the clear colour `(0, 0, 0, 0)`. -/

/-- Modelled from the spec: the clear state of the driver, which the specification
treats as an external service: the clear colour the driver holds and the clears it has
performed, each with its mask and the colour it used. -/
structure DriverState where
  clearColor : vec4 := ⟨0, 0, 0, 0⟩
  cleared : List (Nat × vec4) := []
  deriving DecidableEq, Repr

/-- The effect of one driver call on the clear state. -/
def DriverState.step (s : DriverState) : GlCall → DriverState
  | GlCall.glClearColor red green blue alpha => { s with clearColor := ⟨red, green, blue, alpha⟩ }
  | GlCall.glClear mask => { s with cleared := s.cleared ++ [(mask, s.clearColor)] }
  | _ => s

/-- The effect of a sequence of driver calls, in order. -/
def DriverState.run (s : DriverState) (calls : List GlCall) : DriverState :=
  calls.foldl DriverState.step s

/-! ### Vocabulary of the statements -/

/-- The four datatypes `glDatatypeSize` has a `case` label for. -/
def supportedDatatype (type : Nat) : Prop :=
  type = GL_FLOAT ∨ type = GL_INT ∨ type = GL_DOUBLE ∨ type = GL_UNSIGNED_INT

instance (type : Nat) : Decidable (supportedDatatype type) := by
  unfold supportedDatatype; infer_instance

/-- Byte size of attribute `j`, as a natural number:
`glDatatypeSize(DataType[j]) * Amount[j]`. -/
def attributeBytes (Amount DataType : List Nat) (j : Nat) : Nat :=
  (match renderer.glDatatypeSize (DataType[j]?.getD 0) with
    | .ok size => size
    | .error _ => 0) * Amount[j]?.getD 0

/-- Sum of the byte sizes of the attributes before attribute `i`. -/
def bytesBefore (Amount DataType : List Nat) (i : Nat) : Nat :=
  ∑ j in Finset.range i, attributeBytes Amount DataType j

/-- The two driver calls that enable slot `i` and describe it with the given offset. -/
def slotCalls (Amount DataType : List Nat) (Stride : Nat) (offsetOf : Nat → Nat) (i : Nat) :
    List GlCall :=
  [GlCall.glEnableVertexAttribArray i,
   GlCall.glVertexAttribPointer i ((Amount[i]?.getD 0 : Nat) : Int) (DataType[i]?.getD 0)
     GL_FALSE (toGLint Stride) (offsetOf i)]

/-- The stride arguments of the `glVertexAttribPointer` calls of a trace, in order. -/
def strideArgs (calls : List GlCall) : List Int :=
  calls.filterMap fun c =>
    match c with
    | GlCall.glVertexAttribPointer _ _ _ _ stride _ => some stride
    | _ => none

/-- The upload calls of a trace, in order. -/
def uploads (calls : List GlCall) : List GlCall :=
  calls.filter fun c =>
    match c with
    | GlCall.glBufferData _ _ _ _ => true
    | _ => false

/-- Driver replies used at concrete inputs: every stage object is created,
every status is `GL_TRUE`. -/
def repliesAllGood : renderer.CompileReplies :=
  { vertexShader := 1, vertexStatus := 1, vertexLog := "",
    fragmentShader := 2, fragmentStatus := 1, fragmentLog := "",
    shaderProgram := 3, linkStatus := 1, programLog := "" }

end engine

open engine engine.renderer

/-! ## glDatatypeSize -/

/-- C1: `glDatatypeSize` returns 4 for `GL_FLOAT`, 4 for `GL_INT`, 8 for `GL_DOUBLE` and 4
for `GL_UNSIGNED_INT`; every other 32-bit unsigned value takes the assertion
"Datatype not implemented." instead of returning a size. -/
theorem glDatatypeSize_table :
    glDatatypeSize GL_FLOAT = .ok 4 ∧ glDatatypeSize GL_INT = .ok 4 ∧
    glDatatypeSize GL_DOUBLE = .ok 8 ∧ glDatatypeSize GL_UNSIGNED_INT = .ok 4 ∧
    ∀ type : Nat, type < 2 ^ 32 → ¬ supportedDatatype type →
      glDatatypeSize type = .error (Fault.assertion "Datatype not implemented.") := by
  refine ⟨by decide, by decide, by decide, by decide, ?_⟩
  intro type _ h
  simp only [supportedDatatype, not_or] at h
  simp [glDatatypeSize, h.1, h.2.1, h.2.2.1, h.2.2.2]

/-- C1, at the unknown value `GL_BYTE = 0x1400`. -/
theorem glDatatypeSize_table_witness :
    glDatatypeSize 0x1400 = .error (Fault.assertion "Datatype not implemented.") :=
  glDatatypeSize_table.2.2.2.2 0x1400 (by decide) (by decide)

/-! ## Buffers -/

/-- C4: after `setVertexData(data, N)` the vertex amount is `N`, and after a further
`setVertexData(data2, M)` it is `M`; likewise for `setElementData` and the element
amount. -/
theorem setData_replaces_amount (vb : vertexBuffer) (eb : elementBuffer)
    (data data2 : Option (List float)) (indices indices2 : Option (List Nat)) (N M : Nat) :
    (vb.setVertexData data N).1.getVertexAmount = N ∧
    ((vb.setVertexData data N).1.setVertexData data2 M).1.getVertexAmount = M ∧
    (eb.setElementData indices N).1.getElementAmount = N ∧
    ((eb.setElementData indices N).1.setElementData indices2 M).1.getElementAmount = M := by
  simp [vertexBuffer.setVertexData, vertexBuffer.getVertexAmount,
    elementBuffer.setElementData, elementBuffer.getElementAmount]

/-- C9, amended: built from an empty sequence, a `vertexBuffer` issues `glGenVertexArrays` and
`glGenBuffers` and nothing else, an `elementBuffer` issues `glGenBuffers` and nothing
else, neither reaches a fault, each keeps the names the driver wrote and reports the
amount 0. Built from a non-empty sequence whose length fits the `uint32_t` parameter of
the upload, each returns without a fault, makes exactly one upload, of that sequence with
4 bytes per element, and reports the length of the sequence. -/
theorem buffer_of_sequence (vertices : List float) (indices : List Nat) (vao vbo id : Nat) :
    vertexBuffer.ofVector [] vao vbo =
      ({ _vboId := vbo, _vaoId := vao, _vertexAmount := 0 },
       { calls := [GlCall.glGenVertexArrays 1, GlCall.glGenBuffers 1], fault := none }) ∧
    (vertexBuffer.ofVector [] vao vbo).1.getVertexAmount = 0 ∧
    elementBuffer.ofVector [] id =
      ({ _id := id, _elementAmount := 0 },
       { calls := [GlCall.glGenBuffers 1], fault := none }) ∧
    (elementBuffer.ofVector [] id).1.getElementAmount = 0 ∧
    (vertices ≠ [] → vertices.length < 2 ^ 32 →
      (vertexBuffer.ofVector vertices vao vbo).2.fault = none ∧
      (vertexBuffer.ofVector vertices vao vbo).1._vaoId = vao ∧
      (vertexBuffer.ofVector vertices vao vbo).1._vboId = vbo ∧
      uploads (vertexBuffer.ofVector vertices vao vbo).2.calls =
        [GlCall.glBufferData GL_ARRAY_BUFFER (4 * vertices.length) (some vertices)
          GL_STATIC_DRAW] ∧
      (vertexBuffer.ofVector vertices vao vbo).1.getVertexAmount = vertices.length) ∧
    (indices ≠ [] → indices.length < 2 ^ 32 →
      (elementBuffer.ofVector indices id).2.fault = none ∧
      (elementBuffer.ofVector indices id).1._id = id ∧
      uploads (elementBuffer.ofVector indices id).2.calls =
        [GlCall.glBufferData GL_ELEMENT_ARRAY_BUFFER (4 * indices.length) (some indices)
          GL_STATIC_DRAW] ∧
      (elementBuffer.ofVector indices id).1.getElementAmount = indices.length) := by
  refine ⟨rfl, rfl, rfl, rfl, ?_, ?_⟩
  · intro hne hlen
    cases vertices with
    | nil => exact absurd rfl hne
    | cons x xs =>
      simp only [List.length_cons] at hlen
      simp [vertexBuffer.ofVector, vertexBuffer.setVertexData, vertexBuffer.bind,
        vertexBuffer.getVertexAmount, uploads]
      omega
  · intro hne hlen
    cases indices with
    | nil => exact absurd rfl hne
    | cons x xs =>
      simp only [List.length_cons] at hlen
      simp [elementBuffer.ofVector, elementBuffer.setElementData, elementBuffer.bind,
        elementBuffer.getElementAmount, uploads]
      omega

/-- C9 amended, at three floats and three indices. -/
theorem buffer_of_sequence_witness :
    ((vertexBuffer.ofVector [0, float_one, 0] 1 2).2.fault = none ∧
      (vertexBuffer.ofVector [0, float_one, 0] 1 2).1._vaoId = 1 ∧
      (vertexBuffer.ofVector [0, float_one, 0] 1 2).1._vboId = 2 ∧
      uploads (vertexBuffer.ofVector [0, float_one, 0] 1 2).2.calls =
        [GlCall.glBufferData GL_ARRAY_BUFFER (4 * [0, float_one, 0].length)
          (some [0, float_one, 0]) GL_STATIC_DRAW] ∧
      (vertexBuffer.ofVector [0, float_one, 0] 1 2).1.getVertexAmount
        = [0, float_one, 0].length) ∧
    ((elementBuffer.ofVector [0, 1, 2] 3).2.fault = none ∧
      (elementBuffer.ofVector [0, 1, 2] 3).1._id = 3 ∧
      uploads (elementBuffer.ofVector [0, 1, 2] 3).2.calls =
        [GlCall.glBufferData GL_ELEMENT_ARRAY_BUFFER (4 * [0, 1, 2].length) (some [0, 1, 2])
          GL_STATIC_DRAW] ∧
      (elementBuffer.ofVector [0, 1, 2] 3).1.getElementAmount = [0, 1, 2].length) :=
  ⟨(buffer_of_sequence [0, float_one, 0] [0, 1, 2] 1 2 3).2.2.2.2.1 (by decide) (by decide),
   (buffer_of_sequence [0, float_one, 0] [0, 1, 2] 1 2 3).2.2.2.2.2 (by decide) (by decide)⟩

/-- The vector constructor of `vertexBuffer` on a non-empty sequence, of any length: the
count stored and the byte size uploaded come from the length narrowed to `uint32_t`. -/
theorem vertexBuffer_ofVector_cons (x : float) (xs : List float) (vao vbo : Nat) :
    (vertexBuffer.ofVector (x :: xs) vao vbo).1.getVertexAmount = (xs.length + 1) % 2 ^ 32 ∧
    uploads (vertexBuffer.ofVector (x :: xs) vao vbo).2.calls =
      [GlCall.glBufferData GL_ARRAY_BUFFER ((xs.length + 1) % 2 ^ 32 * 4 % 2 ^ 64)
        (some (x :: xs)) GL_STATIC_DRAW] := by
  simp [vertexBuffer.ofVector, vertexBuffer.setVertexData, vertexBuffer.bind,
    vertexBuffer.getVertexAmount, uploads]

/-- The vector constructor of `elementBuffer` on a non-empty sequence, of any length: the
count stored and the byte size uploaded come from the length narrowed to `uint32_t`. -/
theorem elementBuffer_ofVector_cons (x : Nat) (xs : List Nat) (id : Nat) :
    (elementBuffer.ofVector (x :: xs) id).1.getElementAmount = (xs.length + 1) % 2 ^ 32 ∧
    uploads (elementBuffer.ofVector (x :: xs) id).2.calls =
      [GlCall.glBufferData GL_ELEMENT_ARRAY_BUFFER ((xs.length + 1) % 2 ^ 32 * 4 % 2 ^ 64)
        (some (x :: xs)) GL_STATIC_DRAW] := by
  simp [elementBuffer.ofVector, elementBuffer.setElementData, elementBuffer.bind,
    elementBuffer.getElementAmount, uploads]

/-- C9 as stated fails: built from a sequence of `2 ^ 32 + 5` elements, a `vertexBuffer`
and an `elementBuffer` each report the amount 5, not the length of the sequence, and
upload 20 bytes: `size()` is narrowed to the `uint32_t` parameter of the upload. -/
theorem buffer_of_long_sequence_wraps :
    (0 :: List.replicate 4294967300 0 : List float).length = 2 ^ 32 + 5 ∧
    (vertexBuffer.ofVector (0 :: List.replicate 4294967300 0) 1 2).1.getVertexAmount = 5 ∧
    uploads (vertexBuffer.ofVector (0 :: List.replicate 4294967300 0) 1 2).2.calls =
      [GlCall.glBufferData GL_ARRAY_BUFFER 20 (some (0 :: List.replicate 4294967300 0))
        GL_STATIC_DRAW] ∧
    (elementBuffer.ofVector (0 :: List.replicate 4294967300 0) 3).1.getElementAmount = 5 ∧
    uploads (elementBuffer.ofVector (0 :: List.replicate 4294967300 0) 3).2.calls =
      [GlCall.glBufferData GL_ELEMENT_ARRAY_BUFFER 20 (some (0 :: List.replicate 4294967300 0))
        GL_STATIC_DRAW] ∧
    (vertexBuffer.ofVector (0 :: List.replicate 4294967300 0) 1 2).1.getVertexAmount ≠
      (0 :: List.replicate 4294967300 0 : List float).length ∧
    (elementBuffer.ofVector (0 :: List.replicate 4294967300 0) 3).1.getElementAmount ≠
      (0 :: List.replicate 4294967300 0 : List Nat).length := by
  have hv := vertexBuffer_ofVector_cons 0 (List.replicate 4294967300 0) 1 2
  have he := elementBuffer_ofVector_cons 0 (List.replicate 4294967300 0) 3
  rw [List.length_replicate] at hv he
  have hlen : (0 :: List.replicate 4294967300 0 : List Nat).length = 4294967301 := by
    rw [List.length_cons, List.length_replicate]
  have h5 : (4294967300 + 1) % 2 ^ 32 = 5 := by norm_num
  have h20 : 5 * 4 % 2 ^ 64 = 20 := by norm_num
  rw [h5] at hv he
  rw [h20] at hv he
  refine ⟨?_, hv.1, hv.2, he.1, he.2, ?_, ?_⟩
  · rw [hlen]; norm_num
  · rw [hv.1, hlen]; norm_num
  · rw [he.1, hlen]; norm_num

/-! ## shader -/

/-- The constructor of `shader` issues driver calls exactly when at least one of the two
sources is given. -/
theorem shader_new_calls_iff (vertexSrc fragmentSrc : Option String) (d : CompileReplies) :
    (shader.new vertexSrc fragmentSrc d).2.calls ≠ [] ↔
      (vertexSrc ≠ none ∨ fragmentSrc ≠ none) := by
  cases vertexSrc <;> cases fragmentSrc <;> simp [shader.new, shader.compileShader]

/-- C5, the code at a vertex source with no fragment source: the constructor does run
`compileShader`, hands the driver a null fragment source, and leaves the identifier at
the program name 3 instead of 0. -/
theorem shader_new_one_source_compiles :
    shader.new (some "#version 330 core") none repliesAllGood =
      ({ _id := 0 } : shader).compileShader (some "#version 330 core") none repliesAllGood ∧
    GlCall.glShaderSource 2 1 none ∈
      (shader.new (some "#version 330 core") none repliesAllGood).2.calls ∧
    GlCall.glCompileShader 2 ∈
      (shader.new (some "#version 330 core") none repliesAllGood).2.calls ∧
    (shader.new (some "#version 330 core") none repliesAllGood).1._id = 3 := by
  decide

/-- C6: a shader constructed with no sources has identifier 0 and issues no driver call;
`bind` on a shader with identifier 0 ends in the assertion "Shader is not compiled."
with no driver call issued; `bind` on a shader with a non-zero identifier returns after
the single call `glUseProgram(_id)`. -/
theorem shader_bind_contract (d : CompileReplies) (s : shader) :
    (shader.new none none d).1._id = 0 ∧
    (shader.new none none d).2 = { calls := [], out := [], fault := none } ∧
    (s._id = 0 →
      s.bind = { calls := [], out := [],
                 fault := some (Fault.assertion "Shader is not compiled.") }) ∧
    (s._id ≠ 0 →
      s.bind = { calls := [GlCall.glUseProgram s._id], out := [], fault := none }) := by
  refine ⟨rfl, rfl, ?_, ?_⟩
  · intro h
    simp [shader.bind, h]
  · intro h
    simp [shader.bind, h]

/-- C6, at the never-compiled shader and at a shader with identifier 3. -/
theorem shader_bind_contract_witness :
    ({ _id := 0 } : shader).bind =
      { calls := [], out := [], fault := some (Fault.assertion "Shader is not compiled.") } ∧
    ({ _id := 3 } : shader).bind =
      { calls := [GlCall.glUseProgram 3], out := [], fault := none } :=
  ⟨(shader_bind_contract repliesAllGood { _id := 0 }).2.2.1 rfl,
   (shader_bind_contract repliesAllGood { _id := 3 }).2.2.2 (by decide)⟩

/-- For every renderer and every driver state, the clear that `clear` performs uses the
colour the driver held before the call, and the configured colour is the driver's clear
colour once the call is over. -/
theorem clear_on_any_state (r : renderer) (s : DriverState) :
    (s.run r.clear.calls).cleared =
      s.cleared ++ [(GL_COLOR_BUFFER_BIT ||| GL_DEPTH_BUFFER_BIT, s.clearColor)] ∧
    (s.run r.clear.calls).clearColor = r._renderSettings.ClearColor := by
  simp [renderer.clear, DriverState.run, DriverState.step]

/-- C8, the code at the default settings on a fresh context: `clear` issues `glClear`
before `glClearColor`, so the one clear it performs uses the colour `(0, 0, 0, 0)` the
driver held before the call, not the configured `(0, 0, 0, 1)`; the configured colour is
in the driver only once the call is over. -/
theorem clear_uses_previous_colour :
    (renderer.new ⟨1⟩ {}).clear.calls =
      [GlCall.glClear (GL_COLOR_BUFFER_BIT ||| GL_DEPTH_BUFFER_BIT),
       GlCall.glClearColor 0 0 0 float_one] ∧
    (renderer.new ⟨1⟩ {})._renderSettings.ClearColor = ⟨0, 0, 0, float_one⟩ ∧
    (DriverState.run {} (renderer.new ⟨1⟩ {}).clear.calls).cleared =
      [(GL_COLOR_BUFFER_BIT ||| GL_DEPTH_BUFFER_BIT, ⟨0, 0, 0, 0⟩)] ∧
    (DriverState.run {} (renderer.new ⟨1⟩ {}).clear.calls).clearColor =
      ⟨0, 0, 0, float_one⟩ ∧
    ¬ (∀ c ∈ (DriverState.run {} (renderer.new ⟨1⟩ {}).clear.calls).cleared,
        c.2 = (renderer.new ⟨1⟩ {})._renderSettings.ClearColor) := by
  decide

/-! ## vertexLayoutDynamic before it is populated -/

/-- C10: for `n ≥ 1`, a layout constructed with size `n`, and a layout with empty
vectors after `setSize(n)`, hold `n` zeros in `Amount` and in `DataType`; `bind` on
either enables and describes slot 0 and then ends in the assertion
"Datatype not implemented." of `glDatatypeSize(0)`. For `n = 0` `bind` issues no driver
call and returns. -/
theorem dynamic_layout_unpopulated (n : Nat) (L : vertexLayoutDynamic) :
    (1 ≤ n →
      (vertexLayoutDynamic.new n).Amount = List.replicate n 0 ∧
      (vertexLayoutDynamic.new n).DataType = List.replicate n 0 ∧
      (vertexLayoutDynamic.new n).bind =
        { calls := [GlCall.glEnableVertexAttribArray 0,
                    GlCall.glVertexAttribPointer 0 0 0 GL_FALSE 0 0],
          out := [], fault := some (Fault.assertion "Datatype not implemented.") } ∧
      (L.Amount = [] → L.DataType = [] →
        (L.setSize n).Amount = List.replicate n 0 ∧
        (L.setSize n).DataType = List.replicate n 0 ∧
        (L.setSize n).bind =
          { calls := [GlCall.glEnableVertexAttribArray 0,
                      GlCall.glVertexAttribPointer 0 0 0 GL_FALSE (toGLint L.Stride) 0],
            out := [], fault := some (Fault.assertion "Datatype not implemented.") })) ∧
    (vertexLayoutDynamic.new 0).bind = { calls := [], out := [], fault := none } := by
  refine ⟨?_, rfl⟩
  intro hn
  obtain ⟨m, rfl⟩ : ∃ m, n = m + 1 := ⟨n - 1, by omega⟩
  have hres : resize [0] (m + 1) = List.replicate (m + 1) 0 := by
    simp [resize, List.replicate_succ]
  have hnil : resize [] (m + 1) = List.replicate (m + 1) 0 := by
    simp [resize]
  refine ⟨?_, ?_, ?_, ?_⟩
  · simp [vertexLayoutDynamic.new, vertexLayoutDynamic.setSize, hres]
  · simp [vertexLayoutDynamic.new, vertexLayoutDynamic.setSize, hres]
  · simp only [vertexLayoutDynamic.bind, vertexLayoutDynamic.new, vertexLayoutDynamic.setSize,
      hres, List.length_replicate]
    simp [bindLoop, List.replicate_succ, glDatatypeSize, toGLuint, toGLint, GL_FLOAT, GL_INT,
      GL_DOUBLE, GL_UNSIGNED_INT, GL_FALSE]
  · intro hA hD
    refine ⟨?_, ?_, ?_⟩
    · simp [vertexLayoutDynamic.setSize, hA, hnil]
    · simp [vertexLayoutDynamic.setSize, hD, hnil]
    · simp only [vertexLayoutDynamic.bind, vertexLayoutDynamic.setSize, hA, hD, hnil,
        List.length_replicate]
      simp [bindLoop, List.replicate_succ, glDatatypeSize, toGLuint, toGLint, GL_FLOAT,
        GL_INT, GL_DOUBLE, GL_UNSIGNED_INT, GL_FALSE]

/-- C10, at `n = 2`. -/
theorem dynamic_layout_unpopulated_witness :
    (vertexLayoutDynamic.new 2).Amount = List.replicate 2 0 ∧
    (vertexLayoutDynamic.new 2).DataType = List.replicate 2 0 ∧
    (vertexLayoutDynamic.new 2).bind =
      { calls := [GlCall.glEnableVertexAttribArray 0,
                  GlCall.glVertexAttribPointer 0 0 0 GL_FALSE 0 0],
        out := [], fault := some (Fault.assertion "Datatype not implemented.") } ∧
    ((vertexLayoutDynamic.new 0).setSize 2).bind =
      { calls := [GlCall.glEnableVertexAttribArray 0,
                  GlCall.glVertexAttribPointer 0 0 0 GL_FALSE
                    (toGLint (vertexLayoutDynamic.new 0).Stride) 0],
        out := [], fault := some (Fault.assertion "Datatype not implemented.") } :=
  ⟨((dynamic_layout_unpopulated 2 {}).1 (by decide)).1,
   ((dynamic_layout_unpopulated 2 {}).1 (by decide)).2.1,
   ((dynamic_layout_unpopulated 2 {}).1 (by decide)).2.2.1,
   (((dynamic_layout_unpopulated 2 (vertexLayoutDynamic.new 0)).1 (by decide)).2.2.2
      rfl rfl).2.2⟩

/-! ## bind -/

theorem bytesBefore_succ (Amount DataType : List Nat) (i : Nat) :
    bytesBefore Amount DataType (i + 1) =
      bytesBefore Amount DataType i + attributeBytes Amount DataType i :=
  Finset.sum_range_succ _ _

theorem bytesBefore_mono (Amount DataType : List Nat) {i j : Nat} (h : i ≤ j) :
    bytesBefore Amount DataType i ≤ bytesBefore Amount DataType j :=
  Finset.sum_le_sum_of_subset (Finset.range_mono h)

theorem glDatatypeSize_supported {type : Nat} (h : supportedDatatype type) :
    glDatatypeSize type = .ok 4 ∨ glDatatypeSize type = .ok 8 := by
  rcases h with h | h | h | h <;> subst h <;> decide

/-- The loop invariant of `bind`: from index `i` with the running offset equal to the
bytes before `i`, `k` further in-range attributes of supported datatypes, with no 32-bit
wrap, are each enabled and described at the bytes before them, and the loop returns. -/
theorem bindLoop_supported (Amount DataType : List Nat) (Stride : Nat)
    (hsup : ∀ d ∈ DataType, supportedDatatype d) :
    ∀ (k i offset : Nat) (calls : List GlCall),
      i + k ≤ Amount.length → i + k ≤ DataType.length → i + k ≤ 2 ^ 32 →
      offset = bytesBefore Amount DataType i →
      bytesBefore Amount DataType (i + k) < 2 ^ 32 →
      bindLoop Amount DataType Stride k i offset calls =
        { calls := calls ++ (List.range' i k).flatMap
            (slotCalls Amount DataType Stride (bytesBefore Amount DataType)),
          out := [], fault := none } := by
  intro k
  induction k with
  | zero =>
    intro i offset calls _ _ _ _ _
    simp [bindLoop]
  | succ k ih =>
    intro i offset calls hA hD hn hoff htot
    have hiA : i < Amount.length := by omega
    have hiD : i < DataType.length := by omega
    have ha : Amount[i]? = some Amount[i] := List.getElem?_eq_getElem hiA
    have hd : DataType[i]? = some DataType[i] := List.getElem?_eq_getElem hiD
    have hle : bytesBefore Amount DataType (i + 1) ≤ bytesBefore Amount DataType (i + (k + 1)) :=
      bytesBefore_mono Amount DataType (by omega)
    rw [bytesBefore_succ] at hle
    have hi32 : i % 2 ^ 32 = i := Nat.mod_eq_of_lt (by omega)
    rcases glDatatypeSize_supported (hsup _ (List.getElem_mem hiD)) with hs | hs
    · have hattr : attributeBytes Amount DataType i = 4 * Amount[i] := by
        simp [attributeBytes, ha, hd, hs]
      rw [hattr] at hle
      have hnext : (offset + 4 * Amount[i] % 2 ^ 32) % 2 ^ 32 =
          bytesBefore Amount DataType (i + 1) := by
        rw [bytesBefore_succ, hattr, hoff]; omega
      have hint : toGLint Amount[i] = (Amount[i] : Int) := by
        unfold toGLint
        have h1 : Amount[i] % 2 ^ 32 = Amount[i] := Nat.mod_eq_of_lt (by omega)
        rw [h1, if_pos (by omega)]
      rw [bindLoop]
      simp only [ha, hd, hs, hnext]
      rw [ih (i + 1) _ _ (by omega) (by omega) (by omega) rfl (by rw [Nat.add_assoc, Nat.add_comm 1 k]; exact htot)]
      simp [List.range'_succ, List.flatMap_cons, slotCalls, toGLuint, hint, ha, hd, hoff]
      omega
    · have hattr : attributeBytes Amount DataType i = 8 * Amount[i] := by
        simp [attributeBytes, ha, hd, hs]
      rw [hattr] at hle
      have hnext : (offset + 8 * Amount[i] % 2 ^ 32) % 2 ^ 32 =
          bytesBefore Amount DataType (i + 1) := by
        rw [bytesBefore_succ, hattr, hoff]; omega
      have hint : toGLint Amount[i] = (Amount[i] : Int) := by
        unfold toGLint
        have h1 : Amount[i] % 2 ^ 32 = Amount[i] := Nat.mod_eq_of_lt (by omega)
        rw [h1, if_pos (by omega)]
      rw [bindLoop]
      simp only [ha, hd, hs, hnext]
      rw [ih (i + 1) _ _ (by omega) (by omega) (by omega) rfl (by rw [Nat.add_assoc, Nat.add_comm 1 k]; exact htot)]
      simp [List.range'_succ, List.flatMap_cons, slotCalls, toGLuint, hint, ha, hd, hoff]
      omega

theorem strideArgs_slotCalls (Amount DataType : List Nat) (Stride : Nat) (offsetOf : Nat → Nat)
    (n : Nat) :
    strideArgs ((List.range n).flatMap (slotCalls Amount DataType Stride offsetOf)) =
      List.replicate n (toGLint Stride) := by
  induction n with
  | zero => rfl
  | succ n ih =>
    rw [List.range_succ, List.flatMap_append]
    unfold strideArgs at ih ⊢
    rw [List.filterMap_append, ih, List.replicate_succ']
    simp [slotCalls]

/-- The whole of a `bind` over in-range attributes of supported datatypes whose byte sizes
sum to less than `2 ^ 32`: the trace of the loop started at index 0 with offset 0. -/
theorem bindLoop_from_zero (Amount DataType : List Nat) (Stride : Nat)
    (hlen : Amount.length = DataType.length) (hn : Amount.length ≤ 2 ^ 32)
    (hsup : ∀ d ∈ DataType, supportedDatatype d)
    (htot : bytesBefore Amount DataType Amount.length < 2 ^ 32) :
    bindLoop Amount DataType Stride Amount.length 0 0 [] =
      { calls := (List.range Amount.length).flatMap
          (slotCalls Amount DataType Stride (bytesBefore Amount DataType)),
        out := [], fault := none } := by
  rw [bindLoop_supported Amount DataType Stride hsup Amount.length 0 0 []
    (by omega) (by omega) (by omega) (by simp [bytesBefore]) (by simpa using htot)]
  simp [List.range_eq_range']

/-- C3 as stated fails: a layout of one attribute of three floats whose `Stride` member
still holds its initial 0 is bound with stride 0, while the byte sizes sum to 12. -/
theorem bind_stride_is_not_the_sum :
    strideArgs (vertexLayoutDynamic.bind
      { Amount := [3], DataType := [GL_FLOAT], Stride := 0 }).calls = [0] ∧
    strideArgs (vertexLayout.bind
      (⟨[3], [GL_FLOAT], 0, rfl, rfl⟩ : vertexLayout 1)).calls = [0] ∧
    (∑ i in Finset.range 1, attributeBytes [3] [GL_FLOAT] i) = 12 ∧
    ¬ (∀ stride ∈ strideArgs (vertexLayoutDynamic.bind
        { Amount := [3], DataType := [GL_FLOAT], Stride := 0 }).calls,
      stride = ((∑ i in Finset.range 1, attributeBytes [3] [GL_FLOAT] i : Nat) : Int)) := by
  decide

/-- C3, amended: for a layout, dynamic or fixed, with arrays of the same length (at most
`2 ^ 32`), supported datatypes and attribute byte sizes summing to less than `2 ^ 32`,
the stride `bind` passes for each of the `n` attributes is the layout's `Stride` member
as a `GLsizei`; it is the sum of the attribute byte sizes when the caller stored that sum,
below `2 ^ 31`, in `Stride`. -/
theorem bind_passes_stride_member (Amount DataType : List Nat) (Stride : Nat)
    (hlen : Amount.length = DataType.length) (hn : Amount.length ≤ 2 ^ 32)
    (hsup : ∀ d ∈ DataType, supportedDatatype d)
    (htot : bytesBefore Amount DataType Amount.length < 2 ^ 32) :
    strideArgs (vertexLayoutDynamic.bind
      { Amount := Amount, DataType := DataType, Stride := Stride }).calls =
      List.replicate Amount.length (toGLint Stride) ∧
    strideArgs (vertexLayout.bind (⟨Amount, DataType, Stride, rfl, hlen.symm⟩ : vertexLayout Amount.length)).calls =
      List.replicate Amount.length (toGLint Stride) ∧
    (Stride = bytesBefore Amount DataType Amount.length → Stride < 2 ^ 31 →
      toGLint Stride = ((∑ i in Finset.range Amount.length,
        attributeBytes Amount DataType i : Nat) : Int)) := by
  have h := bindLoop_from_zero Amount DataType Stride hlen hn hsup htot
  refine ⟨?_, ?_, ?_⟩
  · simp only [vertexLayoutDynamic.bind, h]
    exact strideArgs_slotCalls _ _ _ _ _
  · simp only [vertexLayout.bind, h]
    exact strideArgs_slotCalls _ _ _ _ _
  · intro hS hlt
    unfold toGLint
    have h1 : Stride % 2 ^ 32 = Stride := Nat.mod_eq_of_lt (by omega)
    rw [h1, if_pos hlt, hS]
    rfl

/-- C3 amended, at one attribute of three floats with `Stride` set to 12. -/
theorem bind_passes_stride_member_witness :
    strideArgs (vertexLayoutDynamic.bind
      { Amount := [3], DataType := [GL_FLOAT], Stride := 12 }).calls =
      List.replicate 1 (toGLint 12) :=
  (bind_passes_stride_member [3] [GL_FLOAT] 12 rfl (by decide) (by decide) (by decide)).1
